import Mathlib

/-! Shallow embedding of the hexapod control core
(src/software/hexapod/hexapod.py and src/software/hexapod/rpc_server.py).

Python floats are modelled as rationals, Python ints as integers.
The external `Control` object (gait executor) is out of scope per the spec;
its pieces that the facade touches are modelled as fields of the device
state (leg_positions, command_queue, timeout stamp, calibration table),
its reachability predicate `check_point_validity` is an abstract boolean
parameter, and its `set_leg_angles` side effect is modelled as a counter.
Servo writes (`set_servo_angle(channel, angle)`) are recorded in an
append-only log so that partial writes stay visible.
-/

namespace Hexapod

/-- Embeds `_TrackingPID` (hexapod.py lines 18-26): per-axis PID state. -/
structure TrackingPID where
  set_point : ℚ
  kp : ℚ
  ki : ℚ
  kd : ℚ
  last_error : ℚ
  i_error : ℚ
  i_saturation : ℚ
  deriving DecidableEq

/-- Embeds `_TrackingPID.__init__(p, i, d)`: fresh controller state. -/
def TrackingPID.init (p i d : ℚ) : TrackingPID :=
  { set_point := 0, kp := p, ki := i, kd := d,
    last_error := 0, i_error := 0, i_saturation := 10 }

/-- Embeds `_TrackingPID.compute` (hexapod.py lines 28-39): returns the
output together with the updated controller state.  The integral
accumulator is incremented by the error and then clamped to the
saturation band before it is used in the output. -/
def TrackingPID.compute (s : TrackingPID) (feedback_val : ℚ) : ℚ × TrackingPID :=
  let error := s.set_point - feedback_val
  let p_error := s.kp * error
  let iRaw := s.i_error + error
  let d_error := s.kd * (error - s.last_error)
  let iClamped :=
    if iRaw < -s.i_saturation then -s.i_saturation
    else if iRaw > s.i_saturation then s.i_saturation
    else iRaw
  let output := p_error + s.ki * iClamped + d_error
  (-output, { s with i_error := iClamped, last_error := error })

/-- Feeds a list of feedback values through `compute`, keeping only the
controller state (the device keeps the PID object and discards nothing). -/
def TrackingPID.runSeq (s : TrackingPID) : List ℚ → TrackingPID
  | [] => s
  | v :: vs => TrackingPID.runSeq (s.compute v).2 vs

/-- Python `int(q)` on a float truncates toward zero. -/
def pyInt (q : ℚ) : ℤ := if 0 ≤ q then ⌊q⌋ else ⌈q⌉

/-- Python exceptions raised by the device operations. -/
inductive PyError where
  | valueError (msg : String)
  | runtimeError (msg : String)
  deriving DecidableEq

/-- Embeds `HexapodDevice` state (hexapod.py `__init__` plus the pieces of
the external `Control` object the facade reads and writes).
`servoLog` records every `set_servo_angle(channel, angle)` call in order;
`legAnglesApplied` counts calls of the external `control.set_leg_angles()`;
`stamp` is a counter standing in for the `time.time()` freshness stamp;
`ballThreadAlive` models `self._ball_thread is not None and is_alive()`. -/
structure DeviceState where
  connected : Bool
  moveSpeed : ℤ
  moving : Bool
  ballActive : Bool
  ballTracking : Bool
  ballThreadAlive : Bool
  ballStopSignal : Bool
  servoPowerDisabled : Bool
  cameraStreaming : Bool
  legPositions : List (List ℤ)
  calibration : List (ℤ × ℤ × ℤ)
  commandQueue : List String
  stamp : ℕ
  servoLog : List (ℤ × ℤ)
  legAnglesApplied : ℕ
  pidX : TrackingPID
  pidDistance : TrackingPID
  deriving DecidableEq

/-- A device operation yields the state at return or raise time, plus the
raised exception when there is one (Python mutations made before a raise
persist, so the error case carries a state as well). -/
abbrev OpResult := DeviceState × Option PyError

/-- Embeds the external command constant `cmd.CMD_MOVE`. -/
def CMD_MOVE : String := "CMD_MOVE"

/-- A representative idle device state mirroring `HexapodDevice.__init__`:
speed 8, no motion, no tracking, PID gains (0.05, 0.005, 0.02) and
(0.3, 0.05, 0.05) with set-points 180 and 60.  The leg table and
calibration table live in the external Control object; representative
well-formed values (six entries) are used here. -/
def baseState : DeviceState :=
  { connected := false
    moveSpeed := 8
    moving := false
    ballActive := false
    ballTracking := false
    ballThreadAlive := false
    ballStopSignal := false
    servoPowerDisabled := false
    cameraStreaming := false
    legPositions := [[0,0,0],[0,0,0],[0,0,0],[0,0,0],[0,0,0],[0,0,0]]
    calibration := [(0,0,0),(0,0,0),(0,0,0),(0,0,0),(0,0,0),(0,0,0)]
    commandQueue := []
    stamp := 0
    servoLog := []
    legAnglesApplied := 0
    pidX := { TrackingPID.init 0.05 0.005 0.02 with set_point := 180 }
    pidDistance := { TrackingPID.init 0.3 0.05 0.05 with set_point := 60 } }

/-- Embeds `HexapodDevice.move` (lines 100-112): clears the ball-active
flag, records whether the motion is a no-op, and publishes the command
with a fresh stamp.  Arguments arrive after `int()` coercion. -/
def move (s : DeviceState) (gait x y angle : ℤ) : DeviceState :=
  { s with
    ballActive := false
    moving := !(x == 0 && y == 0 && angle == 0)
    commandQueue := [CMD_MOVE, toString gait, toString x, toString y,
                     toString s.moveSpeed, toString angle]
    stamp := s.stamp + 1 }

/-- Embeds `HexapodDevice.stop` (lines 114-116): clear the moving flag,
then issue the zero move. -/
def stop (s : DeviceState) : DeviceState :=
  move { s with moving := false } 1 0 0 0

/-- Embeds the servo write interface `set_servo_angle(channel, angle)`
as an append to the write log. -/
def set_servo_angle (s : DeviceState) (channel angle : ℤ) : DeviceState :=
  { s with servoLog := s.servoLog ++ [(channel, angle)] }

/-- Embeds `HexapodDevice.ball_start` (lines 185-193): center the head
(servo channels 0 and 1 at 90), set the flags, clear the stop signal and
make sure the tracking thread runs. -/
def ball_start (s : DeviceState) : DeviceState :=
  let s0 := set_servo_angle (set_servo_angle s 0 90) 1 90
  { s0 with ballActive := true, ballTracking := true,
            ballStopSignal := false, ballThreadAlive := true }

/-- Embeds `HexapodDevice.ball_stop` (lines 195-203): clear the flags,
set the stop signal, join the thread (with forced cancel as fallback, so
the thread is no longer alive afterwards), then issue `stop()`. -/
def ball_stop (s : DeviceState) : DeviceState :=
  stop { s with ballActive := false, ballTracking := false,
                ballStopSignal := true, ballThreadAlive := false }

/-- Embeds `HexapodDevice.ball_state` (lines 205-208). -/
def ball_state (s : DeviceState) : String :=
  if s.ballActive then (if s.ballTracking then "ongoing" else "completed")
  else "not tracking"

/-- Embeds `HexapodDevice.disconnect` (lines 83-88): `ball_stop`, servo
power off, camera stream off, connected flag cleared. -/
def disconnect (s : DeviceState) : DeviceState :=
  let s1 := ball_stop s
  { s1 with servoPowerDisabled := true, cameraStreaming := false,
            connected := false }

/-- The error raised by `_ensure_manual_leg_allowed`. -/
def manualLegError : PyError :=
  .runtimeError "Stop motion and ball tracking before manual leg control."

/-- The error raised by `_assert_leg_index`. -/
def legIndexError : PyError :=
  .valueError "leg_index must be in [0, 5]"

/-- Embeds `HexapodDevice._ensure_manual_leg_allowed` (lines 285-287). -/
def ensure_manual_leg_allowed (s : DeviceState) : Option PyError :=
  if s.moving || s.ballActive then some manualLegError else none

/-- Embeds `HexapodDevice._assert_leg_index` (lines 281-283). -/
def assert_leg_index (i : ℤ) : Option PyError :=
  if i < 0 ∨ 5 < i then some legIndexError else none

/-- Embeds the external `control.set_leg_angles()` call as an effect
counter (it recomputes servo outputs from the leg table; its internals
are out of scope per the spec). -/
def set_leg_angles (s : DeviceState) : DeviceState :=
  { s with legAnglesApplied := s.legAnglesApplied + 1 }

/-- Embeds `HexapodDevice.set_leg_position` (lines 289-297): guard,
index check, snapshot one row, write it, run the external reachability
validator, restore the snapshot on rejection. -/
def set_leg_position (valid : List (List ℤ) → Bool) (s : DeviceState)
    (leg_index x y z : ℤ) : OpResult :=
  match ensure_manual_leg_allowed s with
  | some e => (s, some e)
  | none =>
  match assert_leg_index leg_index with
  | some e => (s, some e)
  | none =>
    let prev := s.legPositions.getD leg_index.toNat []
    let lp1 := s.legPositions.set leg_index.toNat [x, y, z]
    if valid lp1 then (set_leg_angles { s with legPositions := lp1 }, none)
    else ({ s with legPositions := lp1.set leg_index.toNat prev },
          some (.valueError "Leg position out of range."))

/-- Embeds the write loop of `set_leg_positions` (lines 304-308): write
each well-shaped `[x, y, z]` row in order; `none` when a row has the
wrong shape (the caller then restores the snapshot). -/
def writePositions : List (List ℤ) → ℕ → List (List ℤ) → Option (List (List ℤ))
  | lp, _, [] => some lp
  | lp, i, p :: rest =>
    match p with
    | [px, py, pz] => writePositions (lp.set i [px, py, pz]) (i + 1) rest
    | _ => none

/-- Embeds `HexapodDevice.set_leg_positions` (lines 299-312): guard,
batch-length check, snapshot, write all six rows, validate, restore the
full snapshot on any failure. -/
def set_leg_positions (valid : List (List ℤ) → Bool) (s : DeviceState)
    (positions : List (List ℤ)) : OpResult :=
  match ensure_manual_leg_allowed s with
  | some e => (s, some e)
  | none =>
    if positions.length ≠ 6 then
      (s, some (.valueError "positions must contain 6 items."))
    else
      let prev := s.legPositions
      match writePositions s.legPositions 0 positions with
      | none => ({ s with legPositions := prev },
                 some (.valueError "Each position must be [x, y, z]."))
      | some lp =>
        if valid lp then (set_leg_angles { s with legPositions := lp }, none)
        else ({ s with legPositions := prev },
              some (.valueError "Leg positions out of range."))

/-- Embeds `HexapodDevice._LEG_CHANNELS` (lines 43-50). -/
def LEG_CHANNELS : List (ℤ × ℤ × ℤ) :=
  [(15, 14, 13), (12, 11, 10), (9, 8, 31), (22, 23, 27), (19, 20, 21), (16, 17, 18)]

/-- Embeds `HexapodDevice.set_leg_servo_angles` (lines 314-320): guard,
index check, then write the three channels of that leg in order. -/
def set_leg_servo_angles (s : DeviceState) (leg_index a b c : ℤ) : OpResult :=
  match ensure_manual_leg_allowed s with
  | some e => (s, some e)
  | none =>
  match assert_leg_index leg_index with
  | some e => (s, some e)
  | none =>
    let ch := LEG_CHANNELS.getD leg_index.toNat (0, 0, 0)
    (set_servo_angle (set_servo_angle (set_servo_angle s ch.1 a) ch.2.1 b) ch.2.2 c,
     none)

/-- Embeds the per-entry loop of `set_leg_servo_angles_all` (lines
326-329): shape-check each entry, then delegate to the single-leg
setter; an exception stops the loop with the writes made so far kept. -/
def servoAllLoop (s : DeviceState) (i : ℕ) : List (List ℤ) → OpResult
  | [] => (s, none)
  | la :: rest =>
    if la.length ≠ 3 then
      (s, some (.valueError "Each angle entry must be [a, b, c]."))
    else
      match set_leg_servo_angles s (i : ℤ) (la.getD 0 0) (la.getD 1 0) (la.getD 2 0) with
      | (s1, some e) => (s1, some e)
      | (s1, none) => servoAllLoop s1 (i + 1) rest

/-- Embeds `HexapodDevice.set_leg_servo_angles_all` (lines 322-329). -/
def set_leg_servo_angles_all (s : DeviceState) (angles : List (List ℤ)) : OpResult :=
  match ensure_manual_leg_allowed s with
  | some e => (s, some e)
  | none =>
    if angles.length ≠ 6 then
      (s, some (.valueError "angles must contain 6 items."))
    else servoAllLoop s 0 angles

/-- Modelled from the spec: the external `Control.restrict_value(v, lo, hi)`
clamps `v` into `[lo, hi]` (spec section 4.2 writes the calibration
formulas with `clamp(., 0, 180)`); `control.py` itself is not under src/. -/
def restrict_value (v lo hi : ℤ) : ℤ :=
  if v < lo then lo else if v > hi then hi else v

/-- Embeds `HexapodDevice._apply_calibration` (lines 346-356) with the
calibration row for the leg passed in explicitly. -/
def apply_calibration (calib : ℤ × ℤ × ℤ) (leg_index : ℤ) (a b c : ℤ) : ℤ × ℤ × ℤ :=
  if leg_index < 3 then
    (restrict_value (a + calib.1) 0 180,
     restrict_value (90 - (b + calib.2.1)) 0 180,
     restrict_value (c + calib.2.2) 0 180)
  else
    (restrict_value (a + calib.1) 0 180,
     restrict_value (90 + b + calib.2.1) 0 180,
     restrict_value (180 - (c + calib.2.2)) 0 180)

/-- Embeds `HexapodDevice.set_leg_joint_angles` (lines 331-335): guard,
index check, calibrate, then delegate to the raw servo setter. -/
def set_leg_joint_angles (s : DeviceState) (leg_index a b c : ℤ) : OpResult :=
  match ensure_manual_leg_allowed s with
  | some e => (s, some e)
  | none =>
  match assert_leg_index leg_index with
  | some e => (s, some e)
  | none =>
    let cal := s.calibration.getD leg_index.toNat (0, 0, 0)
    let sv := apply_calibration cal leg_index a b c
    set_leg_servo_angles s leg_index sv.1 sv.2.1 sv.2.2

/-- Embeds the per-entry loop of `set_leg_joint_angles_all` (lines
341-344). -/
def jointAllLoop (s : DeviceState) (i : ℕ) : List (List ℤ) → OpResult
  | [] => (s, none)
  | la :: rest =>
    if la.length ≠ 3 then
      (s, some (.valueError "Each angle entry must be [a, b, c]."))
    else
      match set_leg_joint_angles s (i : ℤ) (la.getD 0 0) (la.getD 1 0) (la.getD 2 0) with
      | (s1, some e) => (s1, some e)
      | (s1, none) => jointAllLoop s1 (i + 1) rest

/-- Embeds `HexapodDevice.set_leg_joint_angles_all` (lines 337-344). -/
def set_leg_joint_angles_all (s : DeviceState) (angles : List (List ℤ)) : OpResult :=
  match ensure_manual_leg_allowed s with
  | some e => (s, some e)
  | none =>
    if angles.length ≠ 6 then
      (s, some (.valueError "angles must contain 6 items."))
    else jointAllLoop s 0 angles

/-- The clamped turn angle of a target-found tick (line 247):
`max(-10, min(10, int(angle_out)))` with `angle_out` the x-axis PID
output on the center x pixel. -/
def tickAngle (s : DeviceState) (centerX : ℤ) : ℤ :=
  max (-10) (min 10 (pyInt (s.pidX.compute (centerX : ℚ)).1))

/-- The clamped forward step of a target-found tick (line 248):
`max(-15, min(15, int(step_out)))` with `step_out` the distance PID
output on the estimated distance. -/
def tickStep (s : DeviceState) (distance : ℤ) : ℤ :=
  max (-15) (min 15 (pyInt (s.pidDistance.compute (distance : ℚ)).1))

/-- Embeds the target-found branch of one tracking-loop tick
(`_ball_tracking_loop`, lines 242-259): set the transient tracking flag,
run both PID computes, truncate and clamp the outputs, publish the move
command, and clear the transient flag exactly when both outputs are
zero.  `centerX` is the moment-derived center x pixel and `distance`
the rounded `2700 / (2 * radius)` estimate, both integers in the code. -/
def ball_tick_found (s : DeviceState) (centerX distance : ℤ) : DeviceState :=
  let angle := tickAngle s centerX
  let step := tickStep s distance
  let s1 := { s with
              ballTracking := true
              pidX := (s.pidX.compute (centerX : ℚ)).2
              pidDistance := (s.pidDistance.compute (distance : ℚ)).2
              commandQueue := [CMD_MOVE, "1", "0", toString step,
                               toString s.moveSpeed, toString angle]
              stamp := s.stamp + 1 }
  if step = 0 ∧ angle = 0 then { s1 with ballTracking := false } else s1

/-- JSON values carried on the RPC wire (rpc_server.py). -/
inductive Json where
  | null
  | bool (b : Bool)
  | num (q : ℚ)
  | str (s : String)
  | arr (items : List Json)
  | obj (fields : List (String × Json))

/-- First binding of a key in a JSON object field list (Python dict
lookup; parsed JSON objects bind each key once). -/
def jsonLookup (k : String) : List (String × Json) → Option Json
  | [] => none
  | (k1, v) :: rest => if k1 = k then some v else jsonLookup k rest

/-- Embeds `message.get(key)` on a decoded JSON message. -/
def jsonGet (j : Json) (k : String) : Option Json :=
  match j with
  | .obj fields => jsonLookup k fields
  | _ => none

/-- The device as `dispatch` sees it through `getattr`: which attribute
names resolve to callables, and what a resolved call does.  `run` yields
either a JSON-safe result (the `_serialize` normalization is folded into
it) or a raised exception as (type name, message). -/
structure RpcEnv where
  resolves : String → Bool
  run : String → List Json → List (String × Json) → Except (String × String) Json

/-- Embeds `HexapodRPCServer.ok_response` (rpc_server.py line 125). -/
def ok_response (reqId : Json) (result : Json) : Json :=
  .obj [("id", reqId), ("ok", .bool true), ("result", result)]

/-- Embeds `HexapodRPCServer.error_response` (rpc_server.py line 128). -/
def error_response (reqId : Json) (message : String) : Json :=
  .obj [("id", reqId), ("ok", .bool false), ("error", .str message)]

/-- Embeds `HexapodRPCServer.dispatch` (rpc_server.py lines 66-103).
`now` stands for `time.time()`, `connected` and `socketPath` for the
fields read by `status`.  The `Except` error case is an exception that
escapes `dispatch` itself (`getattr` with a non-string method name),
which the per-connection worker does not turn into an envelope. -/
def dispatch (env : RpcEnv) (now : ℚ) (connected : Bool) (socketPath : String)
    (msg : Json) : Except String Json :=
  let reqId := (jsonGet msg "id").getD .null
  match jsonGet msg "method" with
  | none => .ok (error_response reqId "Missing \x27method\x27")
  | some methodJson =>
    match (jsonGet msg "args").getD (.arr []) with
    | .arr args =>
      match (jsonGet msg "kwargs").getD (.obj []) with
      | .obj kwargs =>
        match methodJson with
        | .str m =>
          if m = "ping" then .ok (ok_response reqId (.obj [("pong", .num now)]))
          else if m = "status" then
            .ok (ok_response reqId (.obj [("connected", .bool connected),
                                          ("socket", .str socketPath)]))
          else if m = "shutdown" then .ok (ok_response reqId (.str "shutting down"))
          else if env.resolves m then
            match env.run m args kwargs with
            | .ok r => .ok (ok_response reqId r)
            | .error (kind, emsg) =>
              .ok (error_response reqId (kind ++ ": " ++ emsg))
          else .ok (error_response reqId ("Unknown method: " ++ m))
        | _ => .error "TypeError: attribute name must be string"
      | _ => .ok (error_response reqId "\x27kwargs\x27 must be a dict")
    | _ => .ok (error_response reqId "\x27args\x27 must be a list")

/-- Embeds one iteration of `HexapodRPCRequestHandler.handle` (rpc_server.py
lines 26-41) on a non-empty line: `parsed` is the outcome of
`json.loads` (`none` on `JSONDecodeError`, with `excMsg` the decoder
message), and a parse failure is answered with an `id: null` envelope. -/
def handle_line (env : RpcEnv) (now : ℚ) (connected : Bool) (socketPath : String)
    (parsed : Option Json) (excMsg : String) : Except String Json :=
  match parsed with
  | none => .ok (error_response .null ("Invalid JSON: " ++ excMsg))
  | some msg => dispatch env now connected socketPath msg

/-! Helper lemmas shared by several claims. -/

theorem list_set_getD {α : Type} (l : List α) (n : ℕ) (d : α) :
    l.set n (l.getD n d) = l := by
  induction l generalizing n with
  | nil => simp
  | cons a t ih =>
    cases n with
    | zero => simp
    | succ m => simpa using ih m

theorem ite_clamp_eq_max_min (x : ℚ) :
    (if x < -10 then (-10 : ℚ) else if x > 10 then 10 else x)
      = max (-10) (min 10 x) := by
  split_ifs with h1 h2
  · rw [min_eq_right (by linarith : x ≤ (10 : ℚ)),
        max_eq_left (le_of_lt h1)]
  · rw [min_eq_left (by linarith : (10 : ℚ) ≤ x),
        max_eq_right (by norm_num : (-10 : ℚ) ≤ 10)]
  · rw [min_eq_right (by linarith : x ≤ (10 : ℚ)),
        max_eq_right (by linarith : (-10 : ℚ) ≤ x)]

theorem compute_keeps_saturation (s : TrackingPID) (v : ℚ) :
    (s.compute v).2.i_saturation = s.i_saturation := rfl

theorem runSeq_keeps_saturation (s : TrackingPID) (l : List ℚ) :
    (TrackingPID.runSeq s l).i_saturation = s.i_saturation := by
  induction l generalizing s with
  | nil => rfl
  | cons a t ih => simpa [TrackingPID.runSeq] using ih (s.compute a).2

theorem compute_i_error_band (s : TrackingPID) (v : ℚ) (h : s.i_saturation = 10) :
    -10 ≤ (s.compute v).2.i_error ∧ (s.compute v).2.i_error ≤ 10 := by
  simp only [TrackingPID.compute, h]
  constructor <;>
    · split_ifs with h1 h2 <;> push_neg at * <;> linarith

theorem runSeq_append_one (s : TrackingPID) (l : List ℚ) (v : ℚ) :
    TrackingPID.runSeq s (l ++ [v]) = ((TrackingPID.runSeq s l).compute v).2 := by
  induction l generalizing s with
  | nil => rfl
  | cons a t ih => simpa [TrackingPID.runSeq] using ih (s.compute a).2

theorem ensure_fails (s : DeviceState) (h : s.moving = true ∨ s.ballActive = true) :
    ensure_manual_leg_allowed s = some manualLegError := by
  unfold ensure_manual_leg_allowed
  rcases h with h | h <;> simp [h]

theorem ensure_ok (s : DeviceState) (hm : s.moving = false) (hb : s.ballActive = false) :
    ensure_manual_leg_allowed s = none := by
  unfold ensure_manual_leg_allowed
  rw [hm, hb]
  rfl

theorem assert_ok (i : ℤ) (h0 : 0 ≤ i) (h5 : i ≤ 5) : assert_leg_index i = none := by
  unfold assert_leg_index
  rw [if_neg (by omega : ¬(i < 0 ∨ 5 < i))]

theorem assert_fails (i : ℤ) (h : i < 0 ∨ 5 < i) :
    assert_leg_index i = some legIndexError := by
  unfold assert_leg_index
  rw [if_pos h]

theorem set_leg_servo_angles_ok (s : DeviceState) (i a b c : ℤ)
    (hm : s.moving = false) (hb : s.ballActive = false) (h0 : 0 ≤ i) (h5 : i ≤ 5) :
    set_leg_servo_angles s i a b c =
      (set_servo_angle (set_servo_angle (set_servo_angle s
          (LEG_CHANNELS.getD i.toNat (0, 0, 0)).1 a)
          (LEG_CHANNELS.getD i.toNat (0, 0, 0)).2.1 b)
          (LEG_CHANNELS.getD i.toNat (0, 0, 0)).2.2 c, none) := by
  simp only [set_leg_servo_angles, ensure_ok s hm hb, assert_ok i h0 h5]

theorem set_leg_joint_angles_reduces (s : DeviceState) (i a b c : ℤ)
    (hm : s.moving = false) (hb : s.ballActive = false) (h0 : 0 ≤ i) (h5 : i ≤ 5) :
    set_leg_joint_angles s i a b c =
      set_leg_servo_angles s i
        (apply_calibration (s.calibration.getD i.toNat (0, 0, 0)) i a b c).1
        (apply_calibration (s.calibration.getD i.toNat (0, 0, 0)) i a b c).2.1
        (apply_calibration (s.calibration.getD i.toNat (0, 0, 0)) i a b c).2.2 := by
  simp only [set_leg_joint_angles, ensure_ok s hm hb, assert_ok i h0 h5]

theorem servoAllLoop_ok (l : List (List ℤ)) :
    ∀ (s : DeviceState) (i : ℕ), s.moving = false → s.ballActive = false →
    (∀ e ∈ l, e.length = 3) → i + l.length ≤ 6 →
    (servoAllLoop s i l).2 = none := by
  induction l with
  | nil => intro s i _ _ _ _; rfl
  | cons la rest ih =>
    intro s i hm hb hsh hidx
    have hla : la.length = 3 := hsh la (List.mem_cons_self la rest)
    have hi5 : ((i : ℤ)) ≤ 5 := by
      simp only [List.length_cons] at hidx
      omega
    simp only [servoAllLoop]
    rw [if_neg (by simp [hla]),
        set_leg_servo_angles_ok s (i : ℤ) (la.getD 0 0) (la.getD 1 0) (la.getD 2 0)
          hm hb (Int.natCast_nonneg i) hi5]
    exact ih _ (i + 1) hm hb (fun e he => hsh e (List.mem_cons_of_mem la he))
      (by simp only [List.length_cons] at hidx; omega)

theorem jointAllLoop_ok (l : List (List ℤ)) :
    ∀ (s : DeviceState) (i : ℕ), s.moving = false → s.ballActive = false →
    (∀ e ∈ l, e.length = 3) → i + l.length ≤ 6 →
    (jointAllLoop s i l).2 = none := by
  induction l with
  | nil => intro s i _ _ _ _; rfl
  | cons la rest ih =>
    intro s i hm hb hsh hidx
    have hla : la.length = 3 := hsh la (List.mem_cons_self la rest)
    have hi5 : ((i : ℤ)) ≤ 5 := by
      simp only [List.length_cons] at hidx
      omega
    simp only [jointAllLoop]
    rw [if_neg (by simp [hla]),
        set_leg_joint_angles_reduces s (i : ℤ) (la.getD 0 0) (la.getD 1 0) (la.getD 2 0)
          hm hb (Int.natCast_nonneg i) hi5,
        set_leg_servo_angles_ok s (i : ℤ) _ _ _ hm hb (Int.natCast_nonneg i) hi5]
    exact ih _ (i + 1) hm hb (fun e he => hsh e (List.mem_cons_of_mem la he))
      (by simp only [List.length_cons] at hidx; omega)

/-! Claim theorems. -/

/-- C1 counterexample: the claim includes `set_leg_servo_angles_all`
among the all-or-nothing operations, but a batch of six entries whose
second entry has the wrong shape fails validation only after leg 0 has
already been written: the call raises, yet three servo-channel writes
(channels 15, 14, 13) became visible, so the post-failure state differs
from the pre-call state. -/
theorem leg_batch_partial_write_counterexample :
    (set_leg_servo_angles_all baseState
      [[0,0,0],[0,0],[0,0,0],[0,0,0],[0,0,0],[0,0,0]]).2
        = some (PyError.valueError "Each angle entry must be [a, b, c].")
    ∧ (set_leg_servo_angles_all baseState
      [[0,0,0],[0,0],[0,0,0],[0,0,0],[0,0,0],[0,0,0]]).1.servoLog
        = [(15, 0), (14, 0), (13, 0)]
    ∧ ¬ (set_leg_servo_angles_all baseState
      [[0,0,0],[0,0],[0,0,0],[0,0,0],[0,0,0],[0,0,0]]).1 = baseState := by
  refine ⟨rfl, rfl, ?_⟩
  decide

/-- C1 (amended): the position setters (`set_leg_position`,
`set_leg_positions`) are all-or-nothing on every validation failure
(wrong batch length, wrong per-entry shape, and reachability rejection
all leave the state exactly as before); for the servo/joint-angle batch
setters only the batch-length check is guaranteed non-mutating, since a
per-entry shape failure keeps the servo writes already made for the
preceding legs. -/
theorem leg_write_all_or_nothing_amended (valid : List (List ℤ) → Bool) (s : DeviceState) :
    (∀ i x y z : ℤ, (set_leg_position valid s i x y z).2.isSome = true →
      (set_leg_position valid s i x y z).1 = s)
    ∧ (∀ ps, (set_leg_positions valid s ps).2.isSome = true →
      (set_leg_positions valid s ps).1 = s)
    ∧ (∀ angs, angs.length ≠ 6 → (set_leg_servo_angles_all s angs).1 = s)
    ∧ (∀ angs, angs.length ≠ 6 → (set_leg_joint_angles_all s angs).1 = s) := by
  have hguard : ∀ t : DeviceState, ensure_manual_leg_allowed t = none
      ∨ ensure_manual_leg_allowed t = some manualLegError := by
    intro t
    unfold ensure_manual_leg_allowed
    split
    · exact Or.inr rfl
    · exact Or.inl rfl
  have hassert : ∀ j : ℤ, assert_leg_index j = none
      ∨ assert_leg_index j = some legIndexError := by
    intro j
    unfold assert_leg_index
    split
    · exact Or.inr rfl
    · exact Or.inl rfl
  refine ⟨?_, ?_, ?_, ?_⟩
  · intro i x y z
    rcases hguard s with hg | hg
    · rcases hassert i with ha | ha
      · simp only [set_leg_position, hg, ha]
        split
        · intro hk
          simp at hk
        · intro _
          rw [List.set_set, list_set_getD]
      · simp [set_leg_position, hg, ha]
    · simp [set_leg_position, hg]
  · intro ps
    rcases hguard s with hg | hg
    · simp only [set_leg_positions, hg]
      split
      · intro _; rfl
      · cases hw : writePositions s.legPositions 0 ps with
        | none => simp [hw]
        | some lp =>
          simp only [hw]
          split
          · intro hk
            simp at hk
          · intro _; rfl
    · simp [set_leg_positions, hg]
  · intro angs h6
    rcases hguard s with hg | hg
    · simp only [set_leg_servo_angles_all, hg]
      rw [if_pos h6]
    · simp [set_leg_servo_angles_all, hg]
  · intro angs h6
    rcases hguard s with hg | hg
    · simp only [set_leg_joint_angles_all, hg]
      rw [if_pos h6]
    · simp [set_leg_joint_angles_all, hg]

/-- Witness for C1 (amended): a reachability rejection of a single-leg
position write raises and leaves the state exactly as before. -/
theorem leg_write_all_or_nothing_amended_witness :
    (set_leg_position (fun _ => false) baseState 0 1 2 3).2.isSome = true
    ∧ (set_leg_position (fun _ => false) baseState 0 1 2 3).1 = baseState := by
  have h := leg_write_all_or_nothing_amended (fun _ => false) baseState
  exact ⟨rfl, h.1 0 1 2 3 rfl⟩

/-- C9: with the robot neither moving nor tracking, every per-leg
operation taking an index rejects any index outside `[0, 5]` with the
index validation error, leaving the state unchanged. -/
theorem leg_index_out_of_range (valid : List (List ℤ) → Bool) (s : DeviceState) (i : ℤ)
    (hm : s.moving = false) (hb : s.ballActive = false) (hi : i < 0 ∨ 5 < i) :
    (∀ x y z : ℤ, set_leg_position valid s i x y z = (s, some legIndexError))
    ∧ (∀ a b c : ℤ, set_leg_servo_angles s i a b c = (s, some legIndexError))
    ∧ (∀ a b c : ℤ, set_leg_joint_angles s i a b c = (s, some legIndexError)) := by
  have he := ensure_ok s hm hb
  have ha := assert_fails i hi
  refine ⟨?_, ?_, ?_⟩
  · intro x y z
    unfold set_leg_position
    rw [he, ha]
  · intro a b c
    unfold set_leg_servo_angles
    rw [he, ha]
  · intro a b c
    unfold set_leg_joint_angles
    rw [he, ha]

/-- Witness for C9 at index 6 on the idle device. -/
theorem leg_index_out_of_range_witness :
    (baseState.moving = false ∧ baseState.ballActive = false
      ∧ ((6 : ℤ) < 0 ∨ 5 < (6 : ℤ)))
    ∧ set_leg_position (fun _ => true) baseState 6 0 0 0 = (baseState, some legIndexError)
    ∧ set_leg_servo_angles baseState 6 0 0 0 = (baseState, some legIndexError)
    ∧ set_leg_joint_angles baseState 6 0 0 0 = (baseState, some legIndexError) := by
  have h := leg_index_out_of_range (fun _ => true) baseState 6 rfl rfl
    (Or.inr (by decide))
  exact ⟨⟨rfl, rfl, Or.inr (by decide)⟩, h.1 0 0 0, h.2.1 0 0 0, h.2.2 0 0 0⟩

/-- The device state used by the C2 witness: idle but with the moving
flag set by a previous nonzero `move`. -/
def movingState : DeviceState := { baseState with moving := true }

/-- C2: while the moving flag or the tracking-active flag is set, every
leg-setting operation fails with the precondition error and changes
nothing; the moving flag is set by any `move` with nonzero x, y or
angle; and after `stop` every leg-setter succeeds again, given a valid
index, a well-shaped batch, and acceptance by the reachability
predicate where one applies. -/
theorem manual_leg_guard (valid : List (List ℤ) → Bool) (s : DeviceState) :
    ((s.moving = true ∨ s.ballActive = true) →
      (∀ i x y z : ℤ, set_leg_position valid s i x y z = (s, some manualLegError))
      ∧ (∀ ps, set_leg_positions valid s ps = (s, some manualLegError))
      ∧ (∀ i a b c : ℤ, set_leg_servo_angles s i a b c = (s, some manualLegError))
      ∧ (∀ angs, set_leg_servo_angles_all s angs = (s, some manualLegError))
      ∧ (∀ i a b c : ℤ, set_leg_joint_angles s i a b c = (s, some manualLegError))
      ∧ (∀ angs, set_leg_joint_angles_all s angs = (s, some manualLegError)))
    ∧ (∀ g x y a : ℤ, ¬(x = 0 ∧ y = 0 ∧ a = 0) → (move s g x y a).moving = true)
    ∧ (∀ i x y z : ℤ, 0 ≤ i → i ≤ 5 →
        valid ((stop s).legPositions.set i.toNat [x, y, z]) = true →
        (set_leg_position valid (stop s) i x y z).2 = none)
    ∧ (∀ i a b c : ℤ, 0 ≤ i → i ≤ 5 →
        (set_leg_servo_angles (stop s) i a b c).2 = none)
    ∧ (∀ i a b c : ℤ, 0 ≤ i → i ≤ 5 →
        (set_leg_joint_angles (stop s) i a b c).2 = none)
    ∧ (∀ ps lp, writePositions (stop s).legPositions 0 ps = some lp →
        ps.length = 6 → valid lp = true →
        (set_leg_positions valid (stop s) ps).2 = none)
    ∧ (∀ angs, angs.length = 6 → (∀ e ∈ angs, e.length = 3) →
        (set_leg_servo_angles_all (stop s) angs).2 = none)
    ∧ (∀ angs, angs.length = 6 → (∀ e ∈ angs, e.length = 3) →
        (set_leg_joint_angles_all (stop s) angs).2 = none) := by
  refine ⟨?_, ?_, ?_, ?_, ?_, ?_, ?_, ?_⟩
  · intro hA
    have he := ensure_fails s hA
    refine ⟨?_, ?_, ?_, ?_, ?_, ?_⟩
    · intro i x y z
      unfold set_leg_position
      rw [he]
    · intro ps
      unfold set_leg_positions
      rw [he]
    · intro i a b c
      unfold set_leg_servo_angles
      rw [he]
    · intro angs
      unfold set_leg_servo_angles_all
      rw [he]
    · intro i a b c
      unfold set_leg_joint_angles
      rw [he]
    · intro angs
      unfold set_leg_joint_angles_all
      rw [he]
  · intro g x y a h
    simp only [move]
    simp [beq_iff_eq]
    tauto
  · intro i x y z h0 h5 hv
    simp only [set_leg_position, ensure_ok (stop s) rfl rfl, assert_ok i h0 h5]
    rw [if_pos hv]
  · intro i a b c h0 h5
    rw [set_leg_servo_angles_ok (stop s) i a b c rfl rfl h0 h5]
  · intro i a b c h0 h5
    rw [set_leg_joint_angles_reduces (stop s) i a b c rfl rfl h0 h5,
        set_leg_servo_angles_ok (stop s) i _ _ _ rfl rfl h0 h5]
  · intro ps lp hw h6 hv
    simp only [set_leg_positions, ensure_ok (stop s) rfl rfl]
    rw [if_neg (by simp [h6])]
    simp only [hw]
    rw [if_pos hv]
  · intro angs h6 hsh
    simp only [set_leg_servo_angles_all, ensure_ok (stop s) rfl rfl]
    rw [if_neg (by simp [h6])]
    exact servoAllLoop_ok angs (stop s) 0 rfl rfl hsh (by rw [h6])
  · intro angs h6 hsh
    simp only [set_leg_joint_angles_all, ensure_ok (stop s) rfl rfl]
    rw [if_neg (by simp [h6])]
    exact jointAllLoop_ok angs (stop s) 0 rfl rfl hsh (by rw [h6])

/-- Witness for C2: with the moving flag set, a leg write fails with
the precondition error and leaves the state unchanged; after `stop` the
same write succeeds under an accepting reachability predicate. -/
theorem manual_leg_guard_witness :
    (movingState.moving = true ∨ movingState.ballActive = true)
    ∧ set_leg_position (fun _ => true) movingState 0 0 0 0
        = (movingState, some manualLegError)
    ∧ ((0 : ℤ) ≤ 0 ∧ (0 : ℤ) ≤ 5
        ∧ (fun (_ : List (List ℤ)) => true)
            ((stop movingState).legPositions.set (0 : ℤ).toNat [0, 0, 0]) = true)
    ∧ (set_leg_position (fun _ => true) (stop movingState) 0 0 0 0).2 = none := by
  have h := manual_leg_guard (fun _ => true) movingState
  exact ⟨Or.inl rfl, (h.1 (Or.inl rfl)).1 0 0 0 0,
    ⟨by decide, by decide, rfl⟩,
    h.2.2.1 0 0 0 0 (by decide) (by decide) rfl⟩

/-- C4: for every PID state and feedback value `v`, `compute v` returns
`-(kp * e + ki * I2 + kd * (e - last_error))` where `e = set_point - v`
and `I2` is `i_error + e` clamped to `[-10, 10]`; afterwards the stored
integral accumulator is `I2`, the stored last error is `e`, and the
set-point and gains are unchanged. -/
theorem pid_compute_step (s : TrackingPID) (v : ℚ) (hsat : s.i_saturation = 10) :
    (s.compute v).1 =
      -(s.kp * (s.set_point - v)
        + s.ki * max (-10) (min 10 (s.i_error + (s.set_point - v)))
        + s.kd * ((s.set_point - v) - s.last_error))
    ∧ (s.compute v).2.i_error = max (-10) (min 10 (s.i_error + (s.set_point - v)))
    ∧ (s.compute v).2.last_error = s.set_point - v
    ∧ (s.compute v).2.set_point = s.set_point
    ∧ (s.compute v).2.kp = s.kp
    ∧ (s.compute v).2.ki = s.ki
    ∧ (s.compute v).2.kd = s.kd := by
  have hc := ite_clamp_eq_max_min (s.i_error + (s.set_point - v))
  simp only [TrackingPID.compute, hsat]
  rw [hc]
  simp

/-- Witness for C4 at the x-axis controller of the idle device and
feedback 100. -/
theorem pid_compute_step_witness :
    baseState.pidX.i_saturation = 10
    ∧ ((baseState.pidX.compute 100).1 =
        -(baseState.pidX.kp * (baseState.pidX.set_point - 100)
          + baseState.pidX.ki
            * max (-10) (min 10 (baseState.pidX.i_error + (baseState.pidX.set_point - 100)))
          + baseState.pidX.kd * ((baseState.pidX.set_point - 100) - baseState.pidX.last_error))
      ∧ (baseState.pidX.compute 100).2.i_error
          = max (-10) (min 10 (baseState.pidX.i_error + (baseState.pidX.set_point - 100)))
      ∧ (baseState.pidX.compute 100).2.last_error = baseState.pidX.set_point - 100
      ∧ (baseState.pidX.compute 100).2.set_point = baseState.pidX.set_point
      ∧ (baseState.pidX.compute 100).2.kp = baseState.pidX.kp
      ∧ (baseState.pidX.compute 100).2.ki = baseState.pidX.ki
      ∧ (baseState.pidX.compute 100).2.kd = baseState.pidX.kd) :=
  ⟨rfl, pid_compute_step baseState.pidX 100 rfl⟩

/-- C5: starting from a freshly constructed controller (any gains, any
assigned set-point), after every `compute` call of any feedback
sequence the integral accumulator lies in `[-10, 10]`. -/
theorem pid_integral_always_saturated (sp p i d : ℚ) (pre : List ℚ) (v : ℚ) :
    -10 ≤ (TrackingPID.runSeq { TrackingPID.init p i d with set_point := sp }
            (pre ++ [v])).i_error
    ∧ (TrackingPID.runSeq { TrackingPID.init p i d with set_point := sp }
        (pre ++ [v])).i_error ≤ 10 := by
  rw [runSeq_append_one]
  exact compute_i_error_band _ v (by rw [runSeq_keeps_saturation]; rfl)

/-- C6: the calibration map splits by leg group: legs 0-2 use
`(clamp (a+cal.a), clamp (90 - (b+cal.b)), clamp (c+cal.c))` and legs
3-5 use `(clamp (a+cal.a), clamp (90+b+cal.b), clamp (180-(c+cal.c)))`,
all clamped into `[0, 180]`; in particular leg 0 with `b = 20` and zero
calibration gives servo_b 70 while leg 3 gives 110. -/
theorem apply_calibration_by_group (cal : ℤ × ℤ × ℤ) (i a b c : ℤ)
    (h0 : 0 ≤ i) (h5 : i ≤ 5) :
    (i ≤ 2 →
      apply_calibration cal i a b c =
        (max 0 (min 180 (a + cal.1)),
         max 0 (min 180 (90 - (b + cal.2.1))),
         max 0 (min 180 (c + cal.2.2))))
    ∧ (3 ≤ i →
      apply_calibration cal i a b c =
        (max 0 (min 180 (a + cal.1)),
         max 0 (min 180 (90 + b + cal.2.1)),
         max 0 (min 180 (180 - (c + cal.2.2)))))
    ∧ (apply_calibration (0, 0, 0) 0 0 20 0).2.1 = 70
    ∧ (apply_calibration (0, 0, 0) 3 0 20 0).2.1 = 110 := by
  have hr : ∀ v : ℤ, restrict_value v 0 180 = max 0 (min 180 v) := by
    intro v
    unfold restrict_value
    split_ifs <;> omega
  refine ⟨?_, ?_, by decide, by decide⟩
  · intro hle
    rw [apply_calibration, if_pos (by omega : i < 3), hr, hr, hr]
  · intro hge
    rw [apply_calibration, if_neg (by omega : ¬ i < 3), hr, hr, hr]

/-- Witness for C6 at leg 0, joint angles (0, 20, 0), zero calibration. -/
theorem apply_calibration_by_group_witness :
    ((0 : ℤ) ≤ 0 ∧ (0 : ℤ) ≤ 5)
    ∧ apply_calibration (0, 0, 0) 0 0 20 0 =
        (max 0 (min 180 (0 + 0)), max 0 (min 180 (90 - (20 + 0))),
         max 0 (min 180 (0 + 0)))
    ∧ (apply_calibration (0, 0, 0) 0 0 20 0).2.1 = 70
    ∧ (apply_calibration (0, 0, 0) 3 0 20 0).2.1 = 110 := by
  have h := apply_calibration_by_group (0, 0, 0) 0 0 20 0 (by decide) (by decide)
  exact ⟨⟨by decide, by decide⟩, h.1 (by decide), h.2.2.1, h.2.2.2⟩

/-- C10: every `move` call (also the zero move inside `stop` and
`ball_stop`) clears the ball-active flag, so `ball_state` reads
"not tracking" right after any directly issued motion command, while a
running tracking thread is left running by `move` and `stop`. -/
theorem move_clears_tracking_flag (s : DeviceState) (g x y a : ℤ) :
    (move s g x y a).ballActive = false
    ∧ ball_state (move s g x y a) = "not tracking"
    ∧ (move s g x y a).ballThreadAlive = s.ballThreadAlive
    ∧ ball_state (stop s) = "not tracking"
    ∧ (stop s).ballThreadAlive = s.ballThreadAlive
    ∧ ball_state (ball_stop s) = "not tracking" :=
  ⟨rfl, rfl, rfl, rfl, rfl, rfl⟩

/-- C3: `stop` is exactly `move(gait 1, x 0, y 0, angle 0)` plus a clear
of the moving flag (which the zero move clears anyway); `stop` neither
signals nor terminates an active tracking thread, while `disconnect`
(through `ball_stop`) terminates it. -/
theorem stop_vs_disconnect_tracking (s : DeviceState) (h : s.ballThreadAlive = true) :
    stop s = move s 1 0 0 0
    ∧ (stop s).moving = false
    ∧ (stop s).ballThreadAlive = true
    ∧ (stop s).ballStopSignal = s.ballStopSignal
    ∧ (disconnect s).ballThreadAlive = false :=
  ⟨rfl, rfl, h, rfl, rfl⟩

/-- Witness for C3 at the idle device state with a live tracking thread. -/
theorem stop_vs_disconnect_tracking_witness :
    ({ baseState with ballThreadAlive := true } : DeviceState).ballThreadAlive = true
    ∧ (stop { baseState with ballThreadAlive := true }
        = move { baseState with ballThreadAlive := true } 1 0 0 0
      ∧ (stop { baseState with ballThreadAlive := true }).moving = false
      ∧ (stop { baseState with ballThreadAlive := true }).ballThreadAlive = true
      ∧ (stop { baseState with ballThreadAlive := true }).ballStopSignal
          = ({ baseState with ballThreadAlive := true } : DeviceState).ballStopSignal
      ∧ (disconnect { baseState with ballThreadAlive := true }).ballThreadAlive = false) :=
  ⟨rfl, stop_vs_disconnect_tracking { baseState with ballThreadAlive := true } rfl⟩

/-- The device state used by the C7 witness: idle with tracking active. -/
def trackingState : DeviceState := { baseState with ballActive := true }

/-- C7: on a target-found tracking tick, the x-axis PID output is
truncated and clamped to a turn angle in `[-10, 10]` and the distance
PID output to a step in `[-15, 15]`; the move command `gait 1, x 0,
y step, angle turn` at the current speed is published; and `ball_state`
reads "completed" exactly when both clamped outputs are zero, otherwise
"ongoing". -/
theorem ball_tick_found_spec (s : DeviceState) (cx dist : ℤ) (hact : s.ballActive = true) :
    (-10 ≤ tickAngle s cx ∧ tickAngle s cx ≤ 10
      ∧ -15 ≤ tickStep s dist ∧ tickStep s dist ≤ 15)
    ∧ (ball_tick_found s cx dist).commandQueue
        = [CMD_MOVE, "1", "0", toString (tickStep s dist), toString s.moveSpeed,
           toString (tickAngle s cx)]
    ∧ (ball_state (ball_tick_found s cx dist) = "completed"
        ↔ (tickStep s dist = 0 ∧ tickAngle s cx = 0))
    ∧ (¬(tickStep s dist = 0 ∧ tickAngle s cx = 0)
        → ball_state (ball_tick_found s cx dist) = "ongoing") := by
  refine ⟨⟨le_max_left _ _, max_le (by norm_num) (min_le_left _ _),
          le_max_left _ _, max_le (by norm_num) (min_le_left _ _)⟩, ?_, ?_, ?_⟩
  · simp only [ball_tick_found]
    split <;> rfl
  · by_cases h : tickStep s dist = 0 ∧ tickAngle s cx = 0
    · simp only [ball_tick_found, if_pos h, ball_state]
      simp [hact, h]
    · simp only [ball_tick_found, if_neg h, ball_state]
      simp [hact, h]
  · intro h
    simp only [ball_tick_found, if_neg h, ball_state]
    simp [hact]

/-- Witness for C7 at the tracking device state, target centered
(pixel 180, distance 60, both at the PID set-points). -/
theorem ball_tick_found_spec_witness :
    trackingState.ballActive = true
    ∧ ((-10 ≤ tickAngle trackingState 180 ∧ tickAngle trackingState 180 ≤ 10
        ∧ -15 ≤ tickStep trackingState 60 ∧ tickStep trackingState 60 ≤ 15)
      ∧ (ball_tick_found trackingState 180 60).commandQueue
          = [CMD_MOVE, "1", "0", toString (tickStep trackingState 60),
             toString trackingState.moveSpeed, toString (tickAngle trackingState 180)]
      ∧ (ball_state (ball_tick_found trackingState 180 60) = "completed"
          ↔ (tickStep trackingState 60 = 0 ∧ tickAngle trackingState 180 = 0))
      ∧ (¬(tickStep trackingState 60 = 0 ∧ tickAngle trackingState 180 = 0)
          → ball_state (ball_tick_found trackingState 180 60) = "ongoing")) :=
  ⟨rfl, ball_tick_found_spec trackingState 180 60 rfl⟩

/-- The RPC environment used by the C8 witness: no method resolves. -/
def envNone : RpcEnv := { resolves := fun _ => false, run := fun _ _ _ => .ok .null }

/-- The RPC environment used by the C8 witness: every method resolves
and raises `RuntimeError("boom")`. -/
def envBoom : RpcEnv :=
  { resolves := fun _ => true, run := fun _ _ _ => .error ("RuntimeError", "boom") }

/-- The request used by the C8 witness. -/
def msgNope : Json := .obj [("id", .str "y"), ("method", .str "nope")]

/-- C8: a request whose method is none of ping/status/shutdown and does
not resolve to a callable device operation is answered with the failure
envelope carrying "Unknown method: name"; an exception raised by a
resolved operation is caught and answered as a failure envelope carrying
the exception kind and message; and a line that fails JSON parsing is
answered with an error envelope whose id is null. -/
theorem rpc_dispatch_errors (env : RpcEnv) (now : ℚ) (conn : Bool) (sp : String)
    (msg : Json) (m : String) (args : List Json) (kwargs : List (String × Json))
    (hm : jsonGet msg "method" = some (.str m))
    (hargs : (jsonGet msg "args").getD (.arr []) = .arr args)
    (hkw : (jsonGet msg "kwargs").getD (.obj []) = .obj kwargs)
    (hping : m ≠ "ping") (hstatus : m ≠ "status") (hshut : m ≠ "shutdown") :
    (env.resolves m = false →
      dispatch env now conn sp msg
        = .ok (error_response ((jsonGet msg "id").getD .null) ("Unknown method: " ++ m)))
    ∧ (∀ kind emsg, env.resolves m = true →
        env.run m args kwargs = .error (kind, emsg) →
        dispatch env now conn sp msg
          = .ok (error_response ((jsonGet msg "id").getD .null) (kind ++ ": " ++ emsg)))
    ∧ (∀ e, handle_line env now conn sp none e
        = .ok (error_response .null ("Invalid JSON: " ++ e))) := by
  refine ⟨?_, ?_, fun e => rfl⟩
  · intro hres
    simp only [dispatch, hm, hargs, hkw]
    rw [if_neg hping, if_neg hstatus, if_neg hshut, if_neg (by simp [hres])]
  · intro kind emsg hres hrun
    simp only [dispatch, hm, hargs, hkw]
    rw [if_neg hping, if_neg hstatus, if_neg hshut, if_pos hres]
    simp only [hrun]

/-- Witness for C8: the unknown method "nope", a raising resolved
method, and a malformed line. -/
theorem rpc_dispatch_errors_witness :
    (jsonGet msgNope "method" = some (.str "nope")
      ∧ (jsonGet msgNope "args").getD (.arr []) = .arr []
      ∧ (jsonGet msgNope "kwargs").getD (.obj []) = .obj []
      ∧ "nope" ≠ "ping" ∧ "nope" ≠ "status" ∧ "nope" ≠ "shutdown")
    ∧ dispatch envNone 0 false "sock" msgNope
        = .ok (error_response (.str "y") "Unknown method: nope")
    ∧ dispatch envBoom 0 false "sock" msgNope
        = .ok (error_response (.str "y") "RuntimeError: boom")
    ∧ handle_line envNone 0 false "sock" none "bad input"
        = .ok (error_response .null ("Invalid JSON: " ++ "bad input")) := by
  have h1 := rpc_dispatch_errors envNone 0 false "sock" msgNope "nope" [] []
    rfl rfl rfl (by decide) (by decide) (by decide)
  have h2 := rpc_dispatch_errors envBoom 0 false "sock" msgNope "nope" [] []
    rfl rfl rfl (by decide) (by decide) (by decide)
  exact ⟨⟨rfl, rfl, rfl, by decide, by decide, by decide⟩,
    h1.1 rfl, h2.2.1 "RuntimeError" "boom" rfl rfl, h1.2.2 "bad input"⟩

end Hexapod
